import Mathlib

/-!
Shallow embedding of the Transfer-transaction serializer of
`motxx/zinc-sdk-go` (`src/main.go`) and proofs about it.

Go strings are modelled as lists of byte values (`List Nat`, each entry the
byte at that index of the Go string).  Fallible Go functions return a
`GoResult`: `ok` for a normal return, `err` for a returned `error`, and
`panic` for a Go runtime panic (the out-of-range index in
`arrayifyAddress`).  Machine integers (`uint64`, `time.Duration`) are
modelled as `Nat` / `Int`, with reduction modulo `2 ^ 64` made explicit
where the Go code truncates.
-/

/-- `MAX_NUMBER_OF_ACCOUNTS` from `src/main.go` (2 ^ 24). -/
def MAX_NUMBER_OF_ACCOUNTS : Nat := 16777216

/-- `MAX_NUMBER_OF_TOKENS` from `src/main.go`. -/
def MAX_NUMBER_OF_TOKENS : Nat := 128

/-- The distinct `error` values the serializers in `src/main.go` can return,
one constructor per `fmt.Errorf` call site, plus the error returned by
`strconv.ParseInt` inside `arrayifyAddress`. -/
inductive GoError : Type where
  /-- "AccountId is too big" (`serializeAccountId`). -/
  | accountIdTooBig : GoError
  /-- "ETH address must start with 0x and PubKeyHash must start with sync:". -/
  | invalidAddressMarker : GoError
  /-- The error returned by `strconv.ParseInt` on a malformed byte group. -/
  | parseIntError : GoError
  /-- "Address must be 20 bytes long. len: %d" with the observed length. -/
  | addressWrongLength (n : Nat) : GoError
  /-- "TokenId is too big" (`serializeTokenId`). -/
  | tokenIdTooBig : GoError
  /-- "Negative timestamp" (`serializeTimestamp`). -/
  | negativeTimestamp : GoError
deriving DecidableEq, Repr

/-- Outcome of running a fallible Go function: a normal return value, a
returned `error`, or a runtime panic. -/
inductive GoResult (α : Type) : Type where
  | ok (a : α) : GoResult α
  | err (e : GoError) : GoResult α
  | panic : GoResult α
deriving DecidableEq, Repr

/-- Sequencing of Go statements of the shape `x, err := f(...); if err != nil
{ return nil, err }`: a returned error or a panic aborts the caller. -/
def GoResult.bind {α β : Type} : GoResult α → (α → GoResult β) → GoResult β
  | .ok a, f => f a
  | .err e, _ => .err e
  | .panic, _ => .panic

/-- `true` exactly when the result is a normal return. -/
def GoResult.isOk {α : Type} : GoResult α → Bool
  | .ok _ => true
  | _ => false

/-- The returned byte string of an `ok` result (`[]` otherwise). -/
def goBytes : GoResult (List Nat) → List Nat
  | .ok bs => bs
  | _ => []

/-- Big-endian bytes: `beBytes i n` is the `n`-byte big-endian
representation of `i mod 256 ^ n`. -/
def beBytes (i : Nat) : Nat → List Nat
  | 0 => []
  | n + 1 => beBytes (i / 256) n ++ [i % 256]

/-- `Uint2bytes` from `src/main.go`: write the 8-byte big-endian form of the
`uint64` value and keep the slice `bytes[8-size : 8]`. -/
def Uint2bytes (i : Nat) (size : Nat) : List Nat :=
  (beBytes (i % 2 ^ 64) 8).drop (8 - size)

/-- `serializeAccountId` from `src/main.go`. -/
def serializeAccountId (id : Nat) : GoResult (List Nat) :=
  if MAX_NUMBER_OF_ACCOUNTS ≤ id then .err .accountIdTooBig
  else .ok (Uint2bytes id 4)

/-- `removeAddressPrefix` from `src/main.go`: strip a leading `"0x"`
(`[48, 120]`) or `"sync:"` (`[115, 121, 110, 99, 58]`), in that order. -/
def removeAddressPfx (address : List Nat) : GoResult (List Nat) :=
  if List.isPrefixOf [48, 120] address then .ok (address.drop 2)
  else if List.isPrefixOf [115, 121, 110, 99, 58] address then .ok (address.drop 5)
  else .err .invalidAddressMarker

/-- The value of an ASCII hex digit: `0`-`9`, `a`-`f`, `A`-`F`. -/
def hexDigitVal (c : Nat) : Option Nat :=
  if 48 ≤ c ∧ c ≤ 57 then some (c - 48)
  else if 97 ≤ c ∧ c ≤ 102 then some (c - 87)
  else if 65 ≤ c ∧ c ≤ 70 then some (c - 55)
  else none

/-- `strconv.ParseInt("0x" + s, 0, 64)` for a two-byte `s = c1 c2`.  With
base `0` Go detects the `0x` marker and, per the Go integer-literal rules,
also accepts one underscore (`95`) between the marker and a digit, so
`"0x_d"` parses as the single digit `d`; any other non-hex byte fails. -/
def parseHexPair (c1 c2 : Nat) : Option Nat :=
  if c1 = 95 then hexDigitVal c2
  else
    match hexDigitVal c1, hexDigitVal c2 with
    | some a, some b => some (16 * a + b)
    | _, _ => none

/-- `arrayifyAddress` from `src/main.go`: the loop `for i := 0; i <
len(address); i += 2` reads `address[i]` and `address[i+1]`; when the input
has odd length the final read of `address[i+1]` is out of range and the
program panics.  `byte(val)` truncates modulo 256. -/
def arrayifyAddress : List Nat → GoResult (List Nat)
  | [] => .ok []
  | [_] => .panic
  | c1 :: c2 :: rest =>
    match parseHexPair c1 c2 with
    | none => .err .parseIntError
    | some val =>
      match arrayifyAddress rest with
      | .ok res => .ok (val % 256 :: res)
      | .err e => .err e
      | .panic => .panic

/-- `serializeAddress` from `src/main.go`. -/
def serializeAddress (address : List Nat) : GoResult (List Nat) :=
  GoResult.bind (removeAddressPfx address) fun pfxless =>
  GoResult.bind (arrayifyAddress pfxless) fun bytes =>
  if bytes.length ≠ 20 then .err (.addressWrongLength bytes.length)
  else .ok bytes

/-- `serializeTokenId` from `src/main.go`. -/
def serializeTokenId (tokenId : Nat) : GoResult (List Nat) :=
  if MAX_NUMBER_OF_TOKENS ≤ tokenId then .err .tokenIdTooBig
  else .ok (Uint2bytes tokenId 2)

/-- `serializeAmountPacked` from `src/main.go`: the packability check is a
commented-out FIXME; the function returns `[]byte(amount)`, the raw bytes
of the decimal string, and never fails. -/
def serializeAmountPacked (amount : List Nat) : GoResult (List Nat) :=
  .ok amount

/-- `serializeFeePacked` from `src/main.go`: same FIXME stub as
`serializeAmountPacked`. -/
def serializeFeePacked (fee : List Nat) : GoResult (List Nat) :=
  .ok fee

/-- `serializeNonce` from `src/main.go`: no range check. -/
def serializeNonce (nonce : Nat) : GoResult (List Nat) :=
  .ok (Uint2bytes nonce 4)

/-- `serializeTimestamp` from `src/main.go`: a negative `time.Duration`
fails; otherwise 4 zero bytes followed by `Uint2bytes(uint64(ts), 4)`. -/
def serializeTimestamp (ts : Int) : GoResult (List Nat) :=
  if ts < 0 then .err .negativeTimestamp
  else .ok (List.replicate 4 0 ++ Uint2bytes ts.toNat 4)

/-- The `Tx` record of `src/main.go`, restricted to the fields
`serializeTransfer` reads (`Type` and `Signature` are never read by it). -/
structure Tx : Type where
  accountId : Nat
  fromAddr : List Nat
  toAddr : List Nat
  token : Nat
  amount : List Nat
  fee : List Nat
  nonce : Nat
  validFrom : Int
  validUntil : Int
deriving DecidableEq, Repr

/-- `serializeTransfer` from `src/main.go`.  `type_ := make([]byte, 0, 5)`
is a slice of length `0` (capacity 5), so the concatenation starts with an
empty segment; each field is serialized in source order and the first
returned error (or panic) aborts the whole function. -/
def serializeTransfer (tx : Tx) : GoResult (List Nat) :=
  let type_ : List Nat := []
  GoResult.bind (serializeAccountId tx.accountId) fun accountId =>
  GoResult.bind (serializeAddress tx.fromAddr) fun fromB =>
  GoResult.bind (serializeAddress tx.toAddr) fun toB =>
  GoResult.bind (serializeTokenId tx.token) fun token =>
  GoResult.bind (serializeAmountPacked tx.amount) fun amount =>
  GoResult.bind (serializeFeePacked tx.fee) fun fee =>
  GoResult.bind (serializeNonce tx.nonce) fun nonce =>
  GoResult.bind (serializeTimestamp tx.validFrom) fun validFrom =>
  GoResult.bind (serializeTimestamp tx.validUntil) fun validUntil =>
  .ok (type_ ++ accountId ++ fromB ++ toB ++ token ++ amount ++ fee ++
    nonce ++ validFrom ++ validUntil)

/-- Bytes of the string `"0x36615cf349d7f6344891b1e7ca7c72883f5dc049"`. -/
def fromStr9 : List Nat :=
  [48, 120, 51, 54, 54, 49, 53, 99, 102, 51, 52, 57, 100, 55, 102, 54, 51,
   52, 52, 56, 57, 49, 98, 49, 101, 55, 99, 97, 55, 99, 55, 50, 56, 56, 51,
   102, 53, 100, 99, 48, 52, 57]

/-- Bytes of the string `"0x1234567812345678123456781234567812345678"`. -/
def toStr9 : List Nat :=
  [48, 120, 49, 50, 51, 52, 53, 54, 55, 56, 49, 50, 51, 52, 53, 54, 55, 56,
   49, 50, 51, 52, 53, 54, 55, 56, 49, 50, 51, 52, 53, 54, 55, 56, 49, 50,
   51, 52, 53, 54, 55, 56]

/-- Bytes of the string `"37500000000000"`. -/
def feeStr9 : List Nat :=
  [51, 55, 53, 48, 48, 48, 48, 48, 48, 48, 48, 48, 48, 48]

/-- Bytes of the string `"0"`. -/
def amountStr9 : List Nat := [48]

/-- Bytes of the string `"0x123"`: a well-formed marker followed by an odd
number of hex digits. -/
def oddAddr : List Nat := [48, 120, 49, 50, 51]

/-- The end-to-end example transaction of the spec (`data/input.json`). -/
def txC9 : Tx :=
  { accountId := 1, fromAddr := fromStr9, toAddr := toStr9, token := 0,
    amount := amountStr9, fee := feeStr9, nonce := 2, validFrom := 0,
    validUntil := 0 }

/-- The transaction of `txC9` with nonce 7: a second valid input. -/
def txC1 : Tx :=
  { accountId := 1, fromAddr := fromStr9, toAddr := toStr9, token := 0,
    amount := amountStr9, fee := feeStr9, nonce := 7, validFrom := 0,
    validUntil := 0 }

/-- A transaction whose `from` address has an odd number of hex digits and
whose other fields are all valid. -/
def txOddFrom : Tx :=
  { accountId := 1, fromAddr := oddAddr, toAddr := toStr9, token := 0,
    amount := amountStr9, fee := feeStr9, nonce := 2, validFrom := 0,
    validUntil := 0 }

/-- A transaction whose accountId is out of range and whose other fields
are all valid. -/
def txBigAccount : Tx :=
  { accountId := 16777216, fromAddr := fromStr9, toAddr := toStr9,
    token := 0, amount := amountStr9, fee := feeStr9, nonce := 2,
    validFrom := 0, validUntil := 0 }

/-- The transaction of `txC9` with nonce 3: a third valid input. -/
def txNonce3 : Tx :=
  { accountId := 1, fromAddr := fromStr9, toAddr := toStr9, token := 0,
    amount := amountStr9, fee := feeStr9, nonce := 3, validFrom := 0,
    validUntil := 0 }

/-- The 20 bytes that the hex digits of `fromStr9` denote. -/
def addrBytes4 : List Nat :=
  [54, 97, 92, 243, 73, 215, 246, 52, 72, 145, 177, 231, 202, 124, 114,
   136, 63, 93, 192, 73]

/-- Modelled from the spec: the lowercase-hex digit byte for a value below
16 (`0`-`9` then `a`-`f`). -/
def hexDigitChar (n : Nat) : Nat := if n < 10 then n + 48 else n + 87

/-- Modelled from the spec: the lowercase-hex string of a byte string, two
digits per byte, bytes in source order. -/
def hexOfBytes : List Nat → List Nat
  | [] => []
  | b :: bs => hexDigitChar (b / 16) :: hexDigitChar (b % 16) :: hexOfBytes bs

/-- Modelled from the spec: the claimed fixed byte-length of a serialized
Transfer, `1 (type tag) + 4 (accountId) + 20 (from) + 20 (to) + 2 (token)
+ amount-width + fee-width + 4 (nonce) + 8 (validFrom) + 8 (validUntil)`. -/
def specTransferWidthSum (amountW feeW : Nat) : Nat :=
  1 + 4 + 20 + 20 + 2 + amountW + feeW + 4 + 8 + 8

theorem beBytes_length (i n : Nat) : (beBytes i n).length = n := by
  induction n generalizing i with
  | zero => rfl
  | succ n ih => simp [beBytes, ih]

theorem beBytes_mod (n i : Nat) : beBytes (i % 256 ^ n) n = beBytes i n := by
  induction n generalizing i with
  | zero => rfl
  | succ n ih =>
    have h1 : i % 256 ^ (n + 1) % 256 = i % 256 :=
      Nat.mod_mod_of_dvd i (dvd_pow_self 256 (Nat.succ_ne_zero n))
    have h2 : i % 256 ^ (n + 1) / 256 = i / 256 % 256 ^ n := by
      rw [pow_succ']
      exact Nat.mod_mul_right_div_self i 256 (256 ^ n)
    simp only [beBytes, h1, h2, ih]

theorem beBytes_drop (m n i : Nat) : (beBytes i (m + n)).drop m = beBytes i n := by
  induction n generalizing i with
  | zero =>
    exact List.drop_eq_nil_of_le (by rw [beBytes_length]; omega)
  | succ n ih =>
    rw [Nat.add_succ]
    simp only [beBytes]
    rw [List.drop_append_of_le_length (by rw [beBytes_length]; omega), ih]

theorem Uint2bytes_eq (i size : Nat) (h : size ≤ 8) :
    Uint2bytes i size = beBytes (i % 256 ^ size) size := by
  have hdvd : (256 : Nat) ^ size ∣ 2 ^ 64 := by
    have h256 : (256 : Nat) = 2 ^ 8 := by norm_num
    rw [h256, ← pow_mul]
    exact Nat.pow_dvd_pow 2 (by omega)
  have h8 : (8 : Nat) - size + size = 8 := by omega
  calc (beBytes (i % 2 ^ 64) 8).drop (8 - size)
      = (beBytes (i % 2 ^ 64) (8 - size + size)).drop (8 - size) := by rw [h8]
    _ = beBytes (i % 2 ^ 64) size := beBytes_drop _ _ _
    _ = beBytes (i % 2 ^ 64 % 256 ^ size) size := (beBytes_mod _ _).symm
    _ = beBytes (i % 256 ^ size) size := by rw [Nat.mod_mod_of_dvd i hdvd]

theorem Uint2bytes_small (i size : Nat) (h : size ≤ 8) (hi : i < 256 ^ size) :
    Uint2bytes i size = beBytes i size := by
  rw [Uint2bytes_eq i size h, Nat.mod_eq_of_lt hi]

theorem Uint2bytes_length (i size : Nat) (h : size ≤ 8) :
    (Uint2bytes i size).length = size := by
  rw [Uint2bytes_eq i size h, beBytes_length]

theorem GoResult.bind_eq_ok {α β : Type} {x : GoResult α} {f : α → GoResult β}
    {b : β} : GoResult.bind x f = .ok b ↔ ∃ a, x = .ok a ∧ f a = .ok b := by
  cases x <;> simp [GoResult.bind]

theorem serializeAccountId_ok {id : Nat} {bs : List Nat}
    (h : serializeAccountId id = .ok bs) : bs = Uint2bytes id 4 := by
  unfold serializeAccountId at h
  split at h
  · exact absurd h (by simp)
  · injection h with h1
    exact h1.symm

theorem serializeAddress_ok_length {a bs : List Nat}
    (h : serializeAddress a = .ok bs) : bs.length = 20 := by
  unfold serializeAddress at h
  rw [GoResult.bind_eq_ok] at h
  obtain ⟨p, hp, h⟩ := h
  rw [GoResult.bind_eq_ok] at h
  obtain ⟨b, hb, h⟩ := h
  split at h
  · exact absurd h (by simp)
  · next hne =>
    injection h with h1
    subst h1
    omega

theorem serializeTokenId_ok {t : Nat} {bs : List Nat}
    (h : serializeTokenId t = .ok bs) : bs = Uint2bytes t 2 := by
  unfold serializeTokenId at h
  split at h
  · exact absurd h (by simp)
  · injection h with h1
    exact h1.symm

theorem serializeTimestamp_ok_length {ts : Int} {bs : List Nat}
    (h : serializeTimestamp ts = .ok bs) : bs.length = 8 := by
  unfold serializeTimestamp at h
  split at h
  · exact absurd h (by simp)
  · injection h with h1
    rw [← h1]
    simp [Uint2bytes_length _ 4 (by norm_num)]

/-- C2: for every accountId < 2^24, `serializeAccountId` succeeds and
returns exactly 4 bytes equal to the big-endian form of the value; for
every accountId ≥ 2^24, it fails with the account-id-out-of-range error
and returns no bytes. -/
theorem serializeAccountId_range_spec (id : Nat) :
    (id < 2 ^ 24 →
      serializeAccountId id = .ok (beBytes id 4) ∧ (beBytes id 4).length = 4) ∧
    (2 ^ 24 ≤ id → serializeAccountId id = .err .accountIdTooBig) := by
  constructor
  · intro h
    refine ⟨?_, beBytes_length id 4⟩
    unfold serializeAccountId
    rw [if_neg (by unfold MAX_NUMBER_OF_ACCOUNTS; omega)]
    rw [Uint2bytes_small id 4 (by norm_num) (lt_trans h (by norm_num))]
  · intro h
    unfold serializeAccountId
    rw [if_pos (by unfold MAX_NUMBER_OF_ACCOUNTS; omega)]

theorem serializeAccountId_range_spec_witness :
    (serializeAccountId 5 = .ok (beBytes 5 4) ∧ (beBytes 5 4).length = 4) ∧
    serializeAccountId 16777216 = .err .accountIdTooBig :=
  ⟨(serializeAccountId_range_spec 5).1 (by norm_num),
   (serializeAccountId_range_spec 16777216).2 (by norm_num)⟩

/-- C3: for every token id < 128, `serializeTokenId` succeeds and returns
exactly 2 big-endian bytes; for every token id ≥ 128, it fails with the
token-id-out-of-range error and returns no bytes. -/
theorem serializeTokenId_range_spec (t : Nat) :
    (t < 128 →
      serializeTokenId t = .ok (beBytes t 2) ∧ (beBytes t 2).length = 2) ∧
    (128 ≤ t → serializeTokenId t = .err .tokenIdTooBig) := by
  constructor
  · intro h
    refine ⟨?_, beBytes_length t 2⟩
    unfold serializeTokenId
    rw [if_neg (by unfold MAX_NUMBER_OF_TOKENS; omega)]
    rw [Uint2bytes_small t 2 (by norm_num) (lt_trans h (by norm_num))]
  · intro h
    unfold serializeTokenId
    rw [if_pos (by unfold MAX_NUMBER_OF_TOKENS; omega)]

theorem serializeTokenId_range_spec_witness :
    (serializeTokenId 3 = .ok (beBytes 3 2) ∧ (beBytes 3 2).length = 2) ∧
    serializeTokenId 128 = .err .tokenIdTooBig :=
  ⟨(serializeTokenId_range_spec 3).1 (by norm_num),
   (serializeTokenId_range_spec 128).2 (by norm_num)⟩

/-- C7: every negative duration fails with the negative-timestamp error;
every duration ≥ 0 yields exactly 8 bytes, the first 4 zero and the last 4
the big-endian form of the value truncated to 32 bits. -/
theorem serializeTimestamp_spec (ts : Int) :
    (ts < 0 → serializeTimestamp ts = .err .negativeTimestamp) ∧
    (0 ≤ ts →
      serializeTimestamp ts =
        .ok (List.replicate 4 0 ++ beBytes (ts.toNat % 2 ^ 32) 4) ∧
      (List.replicate 4 0 ++ beBytes (ts.toNat % 2 ^ 32) 4).length = 8) := by
  constructor
  · intro h
    unfold serializeTimestamp
    rw [if_pos h]
  · intro h
    constructor
    · unfold serializeTimestamp
      rw [if_neg (by omega)]
      have h4 : Uint2bytes ts.toNat 4 = beBytes (ts.toNat % 2 ^ 32) 4 := by
        rw [Uint2bytes_eq _ 4 (by norm_num)]
        norm_num
      rw [h4]
    · simp [beBytes_length]

theorem serializeTimestamp_spec_witness :
    serializeTimestamp (-1) = .err .negativeTimestamp ∧
    serializeTimestamp 5 =
      .ok (List.replicate 4 0 ++ beBytes ((5 : Int).toNat % 2 ^ 32) 4) :=
  ⟨(serializeTimestamp_spec (-1)).1 (by norm_num),
   ((serializeTimestamp_spec 5).2 (by norm_num)).1⟩

theorem hexDigitVal_char (d : Nat) (h : d < 16) :
    hexDigitVal (hexDigitChar d) = some d := by
  interval_cases d <;> decide

theorem hexDigitChar_ne (d : Nat) (h : d < 16) : hexDigitChar d ≠ 95 := by
  interval_cases d <;> decide

theorem parseHexPair_char (d1 d2 : Nat) (h1 : d1 < 16) (h2 : d2 < 16) :
    parseHexPair (hexDigitChar d1) (hexDigitChar d2) = some (16 * d1 + d2) := by
  unfold parseHexPair
  rw [if_neg (hexDigitChar_ne d1 h1), hexDigitVal_char d1 h1,
    hexDigitVal_char d2 h2]

theorem arrayify_hexOfBytes (bs : List Nat) (h : ∀ b ∈ bs, b < 256) :
    arrayifyAddress (hexOfBytes bs) = .ok bs := by
  induction bs with
  | nil => rfl
  | cons b tl ih =>
    have hb : b < 256 := h b (List.mem_cons_self b tl)
    have htl := ih (fun x hx => h x (List.mem_cons_of_mem b hx))
    have h1 : b / 16 < 16 := by omega
    have h2 : b % 16 < 16 := Nat.mod_lt b (by norm_num)
    show arrayifyAddress
      (hexDigitChar (b / 16) :: hexDigitChar (b % 16) :: hexOfBytes tl) = _
    simp only [arrayifyAddress, parseHexPair_char _ _ h1 h2, htl]
    rw [Nat.div_add_mod, Nat.mod_eq_of_lt hb]

theorem removeAddressPfx_0x (l : List Nat) :
    removeAddressPfx ([48, 120] ++ l) = .ok l := by
  simp [removeAddressPfx, List.isPrefixOf]

theorem removeAddressPfx_sync (l : List Nat) :
    removeAddressPfx ([115, 121, 110, 99, 58] ++ l) = .ok l := by
  simp [removeAddressPfx, List.isPrefixOf]

/-- C4: decoding the lowercase-hex encoding of any 20-byte array, under
either the `"0x"` or the `"sync:"` marker, returns exactly the original
bytes in order. -/
theorem serializeAddress_roundtrip (bs : List Nat) (hlen : bs.length = 20)
    (hb : ∀ b ∈ bs, b < 256) :
    serializeAddress ([48, 120] ++ hexOfBytes bs) = .ok bs ∧
    serializeAddress ([115, 121, 110, 99, 58] ++ hexOfBytes bs) = .ok bs := by
  have harr := arrayify_hexOfBytes bs hb
  constructor
  · unfold serializeAddress
    rw [removeAddressPfx_0x]
    simp only [GoResult.bind]
    rw [harr]
    simp only [GoResult.bind]
    rw [if_neg (by omega)]
  · unfold serializeAddress
    rw [removeAddressPfx_sync]
    simp only [GoResult.bind]
    rw [harr]
    simp only [GoResult.bind]
    rw [if_neg (by omega)]

theorem serializeAddress_roundtrip_witness :
    serializeAddress ([48, 120] ++ hexOfBytes addrBytes4) = .ok addrBytes4 ∧
    serializeAddress ([115, 121, 110, 99, 58] ++ hexOfBytes addrBytes4) =
      .ok addrBytes4 :=
  serializeAddress_roundtrip addrBytes4 (by decide) (by decide)

/-- C5 fails on the code: an address whose hex part has odd length makes
`arrayifyAddress` read past the end of the string, a runtime panic, not a
returned error; and a pair `"_d"` (non-hex underscore) is accepted by
`strconv.ParseInt` with base 0, so a 40-character non-hex string decodes
successfully.  This theorem evaluates the code at both failing inputs. -/
theorem serializeAddress_odd_length_panics :
    serializeAddress oddAddr = GoResult.panic ∧
    serializeAddress ([48, 120] ++ (List.replicate 20 [95, 49]).flatten) =
      .ok (List.replicate 20 1) := by decide

/-- C6 fails on the code: `serializeAmountPacked` and `serializeFeePacked`
are FIXME stubs that return the raw bytes of the decimal string for every
input and never fail, so no packability check and no fixed width exist. -/
theorem serializeAmountPacked_stub_passthrough (s : List Nat) :
    serializeAmountPacked s = .ok s ∧ serializeFeePacked s = .ok s ∧
    ∀ e : GoError, serializeAmountPacked s ≠ .err e ∧
      serializeFeePacked s ≠ .err e := by
  refine ⟨rfl, rfl, fun e => ⟨?_, ?_⟩⟩ <;> simp [serializeAmountPacked,
    serializeFeePacked]

/-- C1 fails on the code: `type_` is `make([]byte, 0, 5)`, a slice of
length 0, so no type-tag byte is ever emitted.  On the valid transaction
`txC1` the output is 81 bytes and starts directly with the 4 accountId
bytes, while the claimed width sum (with a 1-byte tag) is 82. -/
theorem serializeTransfer_missing_type_tag :
    (serializeTransfer txC1).isOk = true ∧
    (goBytes (serializeTransfer txC1)).length = 81 ∧
    List.take 4 (goBytes (serializeTransfer txC1)) = [0, 0, 0, 1] ∧
    specTransferWidthSum txC1.amount.length txC1.fee.length = 82 := by decide

/-- C9 as stated fails on the code: the spec example transaction
serializes successfully, but its output length is not the spec's fixed
width sum (the 1-byte type tag is missing from the output). -/
theorem transferExample_width_counterexample :
    (serializeTransfer txC9).isOk = true ∧
    (goBytes (serializeTransfer txC9)).length ≠
      specTransferWidthSum txC9.amount.length txC9.fee.length := by decide

/-- C9 amended: the spec example transaction serializes successfully, the
output length is `4 + 20 + 20 + 2 + |amount| + |fee| + 4 + 8 + 8 = 81`
(no type-tag byte), and the from/to segments (offsets 4 and 24) are
exactly the 20 decoded hex bytes of the address strings. -/
theorem transferExample_amended :
    (serializeTransfer txC9).isOk = true ∧
    (goBytes (serializeTransfer txC9)).length =
      4 + 20 + 20 + 2 + txC9.amount.length + txC9.fee.length + 4 + 8 + 8 ∧
    List.take 20 (List.drop 4 (goBytes (serializeTransfer txC9))) =
      goBytes (serializeAddress txC9.fromAddr) ∧
    List.take 20 (List.drop 24 (goBytes (serializeTransfer txC9))) =
      goBytes (serializeAddress txC9.toAddr) := by decide

/-- C10: every transaction that serializes successfully yields
`66 + |amount string| + |fee string|` bytes (4 + 20 + 20 + 2 + 4 + 8 + 8
fixed bytes plus the verbatim amount and fee strings) with no type-tag
byte: the output starts directly with the 4 accountId bytes. -/
theorem serializeTransfer_ok_length (tx : Tx) (bs : List Nat)
    (h : serializeTransfer tx = .ok bs) :
    bs.length = 66 + tx.amount.length + tx.fee.length ∧
    List.take 4 bs = Uint2bytes tx.accountId 4 := by
  simp only [serializeTransfer, GoResult.bind_eq_ok, GoResult.ok.injEq,
    serializeAmountPacked, serializeFeePacked, serializeNonce,
    List.nil_append] at h
  obtain ⟨aid, ha, fr, hfr, tob, htob, tok, htok, am, ham, fe, hfe, non,
    hnon, vf, hvf, vu, hvu, hbs⟩ := h
  subst ham
  subst hfe
  subst hnon
  have haid : aid = Uint2bytes tx.accountId 4 := serializeAccountId_ok ha
  have hfl : fr.length = 20 := serializeAddress_ok_length hfr
  have htl : tob.length = 20 := serializeAddress_ok_length htob
  have htokv : tok = Uint2bytes tx.token 2 := serializeTokenId_ok htok
  have hvfl : vf.length = 8 := serializeTimestamp_ok_length hvf
  have hvul : vu.length = 8 := serializeTimestamp_ok_length hvu
  have hal : aid.length = 4 := by
    rw [haid]; exact Uint2bytes_length _ 4 (by norm_num)
  have htkl : tok.length = 2 := by
    rw [htokv]; exact Uint2bytes_length _ 2 (by norm_num)
  have hnl : (Uint2bytes tx.nonce 4).length = 4 :=
    Uint2bytes_length _ 4 (by norm_num)
  subst hbs
  constructor
  · simp only [List.length_append]
    omega
  · repeat rw [List.take_append_of_le_length (by
      (try simp only [List.length_append]); omega)]
    rw [List.take_of_length_le (by omega)]
    exact haid

theorem serializeTransfer_ok_length_witness :
    (goBytes (serializeTransfer txNonce3)).length =
      66 + txNonce3.amount.length + txNonce3.fee.length ∧
    List.take 4 (goBytes (serializeTransfer txNonce3)) =
      Uint2bytes txNonce3.accountId 4 :=
  serializeTransfer_ok_length txNonce3 (goBytes (serializeTransfer txNonce3))
    (by decide)

/-- C8 as stated fails on the code: in `txOddFrom` every field before
`from` is valid and `from` is the first invalid field, yet
`serializeTransfer` ends in a runtime panic instead of returning that
field's error. -/
theorem serializeTransfer_panic_counterexample :
    (serializeAccountId txOddFrom.accountId).isOk = true ∧
    serializeAddress txOddFrom.fromAddr = GoResult.panic ∧
    serializeTransfer txOddFrom = GoResult.panic := by decide

theorem bind_non_ok {r : GoResult (List Nat)} (hr : ∀ a, r ≠ .ok a)
    (f : List Nat → GoResult (List Nat)) : GoResult.bind r f = r := by
  cases r with
  | ok a => exact absurd rfl (hr a)
  | err e => rfl
  | panic => rfl

/-- C8 amended: fields are evaluated strictly in the order accountId,
from, to, token, amount, fee, nonce, validFrom, validUntil; the first
field whose serialization does not return normally aborts the whole
serialization with exactly that field's outcome (its error, or — for a
faulting field such as an odd-length address — its panic), so no partial
byte string is ever produced; amount, fee and nonce never fail; and when
every field succeeds the output is the concatenation of the nine field
encodings. -/
theorem serializeTransfer_first_failure (tx : Tx) (r : GoResult (List Nat))
    (hr : ∀ bs : List Nat, r ≠ .ok bs) :
    (serializeAccountId tx.accountId = r → serializeTransfer tx = r) ∧
    (∀ b1, serializeAccountId tx.accountId = .ok b1 →
      serializeAddress tx.fromAddr = r → serializeTransfer tx = r) ∧
    (∀ b1 b2, serializeAccountId tx.accountId = .ok b1 →
      serializeAddress tx.fromAddr = .ok b2 →
      serializeAddress tx.toAddr = r → serializeTransfer tx = r) ∧
    (∀ b1 b2 b3, serializeAccountId tx.accountId = .ok b1 →
      serializeAddress tx.fromAddr = .ok b2 →
      serializeAddress tx.toAddr = .ok b3 →
      serializeTokenId tx.token = r → serializeTransfer tx = r) ∧
    (serializeAmountPacked tx.amount = .ok tx.amount ∧
      serializeFeePacked tx.fee = .ok tx.fee ∧
      serializeNonce tx.nonce = .ok (Uint2bytes tx.nonce 4)) ∧
    (∀ b1 b2 b3 b4, serializeAccountId tx.accountId = .ok b1 →
      serializeAddress tx.fromAddr = .ok b2 →
      serializeAddress tx.toAddr = .ok b3 →
      serializeTokenId tx.token = .ok b4 →
      serializeTimestamp tx.validFrom = r → serializeTransfer tx = r) ∧
    (∀ b1 b2 b3 b4 b5, serializeAccountId tx.accountId = .ok b1 →
      serializeAddress tx.fromAddr = .ok b2 →
      serializeAddress tx.toAddr = .ok b3 →
      serializeTokenId tx.token = .ok b4 →
      serializeTimestamp tx.validFrom = .ok b5 →
      serializeTimestamp tx.validUntil = r → serializeTransfer tx = r) ∧
    (∀ b1 b2 b3 b4 b5 b6, serializeAccountId tx.accountId = .ok b1 →
      serializeAddress tx.fromAddr = .ok b2 →
      serializeAddress tx.toAddr = .ok b3 →
      serializeTokenId tx.token = .ok b4 →
      serializeTimestamp tx.validFrom = .ok b5 →
      serializeTimestamp tx.validUntil = .ok b6 →
      serializeTransfer tx =
        .ok (b1 ++ b2 ++ b3 ++ b4 ++ tx.amount ++ tx.fee ++
          Uint2bytes tx.nonce 4 ++ b5 ++ b6)) := by
  refine ⟨?_, ?_, ?_, ?_, ⟨rfl, rfl, rfl⟩, ?_, ?_, ?_⟩
  · intro h1
    simp only [serializeTransfer, h1]
    exact bind_non_ok hr _
  · intro b1 h1 h2
    simp only [serializeTransfer, h1, h2, GoResult.bind]
    exact bind_non_ok hr _
  · intro b1 b2 h1 h2 h3
    simp only [serializeTransfer, h1, h2, h3, GoResult.bind]
    exact bind_non_ok hr _
  · intro b1 b2 b3 h1 h2 h3 h4
    simp only [serializeTransfer, h1, h2, h3, h4, GoResult.bind]
    exact bind_non_ok hr _
  · intro b1 b2 b3 b4 h1 h2 h3 h4 h5
    simp only [serializeTransfer, h1, h2, h3, h4, h5, serializeAmountPacked,
      serializeFeePacked, serializeNonce, GoResult.bind]
    exact bind_non_ok hr _
  · intro b1 b2 b3 b4 b5 h1 h2 h3 h4 h5 h6
    simp only [serializeTransfer, h1, h2, h3, h4, h5, h6,
      serializeAmountPacked, serializeFeePacked, serializeNonce,
      GoResult.bind]
    exact bind_non_ok hr _
  · intro b1 b2 b3 b4 b5 b6 h1 h2 h3 h4 h5 h6
    simp only [serializeTransfer, h1, h2, h3, h4, h5, h6,
      serializeAmountPacked, serializeFeePacked, serializeNonce,
      GoResult.bind, List.nil_append]

theorem serializeTransfer_first_failure_witness :
    serializeTransfer txBigAccount = .err .accountIdTooBig :=
  (serializeTransfer_first_failure txBigAccount (.err .accountIdTooBig)
    (by simp)).1 (by decide)
